import Mathlib

/-!
Verification of the customer-support triage pipeline
(app/agent/nodes.py, app/agent/prompts.py, app/config.py).

The request state is the mutable dict threaded through the LangGraph
nodes; optional dict keys are modelled as `Option` fields.  Sentiment
scores (Python floats restricted to small decimal fractions) are
modelled as rationals.  The LLM provider handle is modelled as an
optional function from (template, message, context) to either a reply
text or a failure; node functions additionally report whether they
invoked the provider / the rule-based fallback, mirroring the side
effect of `self.llm.invoke` / `self._rule_based_classification`.
-/

/-- `needle` occurs as a contiguous sublist of `haystack`. -/
def listInfix (needle : List Char) : List Char → Bool
  | [] => needle.isEmpty
  | c :: rest => needle.isPrefixOf (c :: rest) || listInfix needle rest

/-- Python `needle in haystack` substring test. -/
def strContains (haystack needle : String) : Bool :=
  listInfix needle.data haystack.data

/-- Python `str.lower` (over the ASCII range used by the lexicons). -/
def strLower (s : String) : String :=
  ⟨s.data.map Char.toLower⟩

/-- Python `str.upper`. -/
def strUpper (s : String) : String :=
  ⟨s.data.map Char.toUpper⟩

/-- Python `str.split(sep)` for a one-character separator: every
occurrence of the separator delimits a (possibly empty) field. -/
def splitOnChar (sep : Char) : List Char → List (List Char)
  | [] => [[]]
  | c :: rest =>
    let r := splitOnChar sep rest
    if c = sep then [] :: r
    else
      match r with
      | [] => [[c]]
      | h :: t => (c :: h) :: t

/-- Python `str.split(sep)` wrapped for `String`. -/
def strSplitOnChar (sep : Char) (s : String) : List String :=
  (splitOnChar sep s.data).map fun l => ⟨l⟩

/-- Whitespace characters recognised by Python `str.strip()` (the ones
that can occur in this code base). -/
def isWsChar (c : Char) : Bool :=
  c = ' ' || c = '\n' || c = '\t' || c = '\r'

/-- Drop leading whitespace from a character list. -/
def dropWs : List Char → List Char
  | [] => []
  | c :: r => if isWsChar c then dropWs r else c :: r

/-- Python `str.strip()`: remove leading and trailing whitespace. -/
def strStrip (s : String) : String :=
  ⟨(dropWs (dropWs s.data.reverse).reverse)⟩

/-- Python `str.join` over a list of strings with a separator. -/
def joinWith (sep : String) : List String → String
  | [] => ""
  | [x] => x
  | x :: y :: t => x ++ sep ++ joinWith sep (y :: t)

/-- Python `len` on a string (character count). -/
def strLen (s : String) : Nat :=
  s.data.length

/-- Settings fields consumed by the agent nodes (app/config.py, defaults
from the `Settings` class). -/
structure Settings where
  agent_prompt_variant : String
  agent_default_language : String
  agent_auto_detect_language : Bool
deriving Repr, DecidableEq

/-- The default configuration from app/config.py. -/
def defaultSettings : Settings :=
  { agent_prompt_variant := "A"
  , agent_default_language := "en"
  , agent_auto_detect_language := true }

/-- One entry of `conversation_history`: (sender_type, content). -/
abbrev HistoryEntry := String × String

/-- The request-state dict threaded through the pipeline.  Keys that a
stage may leave absent are `Option`; `message` and
`conversation_history` are always present when the pipeline starts. -/
structure AgentState where
  message : String
  conversation_history : List HistoryEntry
  language : Option String := none
  prompt_variant : Option String := none
  intent : Option String := none
  classification_reason : Option String := none
  formatted_context : Option String := none
  sentiment_score : Option ℚ := none
  requires_escalation : Option Bool := none
  escalation_reason : Option String := none
  response : Option String := none
  response_valid : Option Bool := none
deriving Repr, DecidableEq

/-- Fresh state for an incoming message with no history. -/
def initState (msg : String) : AgentState :=
  { message := msg, conversation_history := [] }

/-- The LLM provider call contract: (template, message, context) to a
reply text, or a failure (any exception, modelled uniformly). -/
abbrev Provider := String → String → String → Except Unit String

/-- Modelled from the spec: `detect_urgency` lives in
app/agent/tools.py, which is absent from src/.  Per spec §4.1 it is a
pure, case-insensitive test for any urgency lexical marker: anger
words, legal-action mentions, payment-failure mentions, multiple
consecutive exclamation marks, or all-caps imperative phrases. -/
def detect_urgency (text : String) : Bool :=
  let t := strLower text
  ([ "ridiculous", "unacceptable", "outrageous", "furious"
   , "lawyer", "legal action", "lawsuit", "sue you"
   , "charged twice", "double charged", "payment failed", "scam"
   ].any fun k => strContains t k)
  || strContains text "!!"
  || ([ "NOW", "ASAP", "IMMEDIATELY" ].any fun p => strContains text p)

/-- Modelled from the spec: positive lexicon of
`extract_sentiment_indicators` (app/agent/tools.py, absent from src/). -/
def positiveWords : List String :=
  [ "thank", "great", "good", "awesome", "excellent", "love", "happy"
  , "appreciate", "wonderful" ]

/-- Modelled from the spec: negative lexicon of
`extract_sentiment_indicators` (app/agent/tools.py, absent from src/). -/
def negativeWords : List String :=
  [ "terrible", "unacceptable", "awful", "bad", "worst", "angry"
  , "hate", "ridiculous", "disappointed", "horrible" ]

/-- Modelled from the spec: `extract_sentiment_indicators`
(app/agent/tools.py, absent from src/).  Lexicon-based score — sum of
signed weights (3/10 per matched term), clamped into [-1, 1]; text
with no matches scores 0. -/
def extract_sentiment_indicators (text : String) : ℚ :=
  let t := strLower text
  let pos := (positiveWords.filter fun w => strContains t w).length
  let neg := (negativeWords.filter fun w => strContains t w).length
  let raw : ℚ := mkRat (3 * ((pos : Int) - (neg : Int))) 10
  if raw < -1 then -1 else if 1 < raw then 1 else raw

/-- Modelled from the spec: `detect_language` (app/agent/tools.py,
absent from src/).  Heuristic stopword-based detection, falling back
to the default code "en" when no marker is recognised. -/
def detect_language (text : String) : String :=
  let t := strLower text
  if [ "hola", "gracias", "por favor" ].any (fun w => strContains t w) then "es"
  else if [ "bonjour", "merci" ].any (fun w => strContains t w) then "fr"
  else "en"

/-- Modelled from the spec: `format_context` (app/agent/tools.py,
absent from src/).  Renders history as "SENDER: content" lines; the
empty history yields the fixed sentinel (pinned by
tests/unit/test_agent_tools.py). -/
def format_context (messages : List HistoryEntry) : String :=
  if messages = [] then "No previous context."
  else joinWith "\n"
    (messages.map fun m => strUpper m.1 ++ ": " ++ m.2)

/-- Modelled from the spec: `select_prompt_variant` (app/agent/tools.py,
absent from src/).  Composes "{intent}_{variant}"; unknown
combinations fall back to "general_A" (spec §4.4). -/
def select_prompt_variant (intent variant : String) : String :=
  if (intent = "support" || intent = "sales" || intent = "general")
      && (variant = "A" || variant = "B") then
    intent ++ "_" ++ variant
  else "general_A"

/-- Modelled from the spec: `adjust_response_for_sentiment`
(app/agent/tools.py, absent from src/).  Strongly negative sentiment
prepends an empathetic acknowledgment; otherwise the text is returned
unchanged (no-op in the neutral band, spec §4.4 rule 4). -/
def adjust_response_for_sentiment (text : String) (sentiment : ℚ) : String :=
  if sentiment ≤ mkRat (-1) 2 then
    "I completely understand your frustration. " ++ text
  else text

/-- app/agent/prompts.py: CLASSIFICATION_PROMPT. -/
def CLASSIFICATION_PROMPT : String :=
  "You are an AI assistant that classifies customer messages into intents.\n\nAnalyze the following message and classify it into ONE of these categories:\n- SUPPORT: Customer support queries, issues, complaints, or requests for help\n- SALES: Sales inquiries, pricing questions, product information requests\n- GENERAL: General questions, greetings, or casual conversation\n- URGENT: Messages indicating urgency, frustration, or requiring immediate human attention\n\nConsider the following indicators for URGENT classification:\n- Strong negative emotions (anger, frustration, distress)\n- Words like \"ridiculous\", \"unacceptable\", \"immediately\", \"asap\"\n- Multiple exclamation marks\n- Mentions of legal action or complaints\n- Critical issues (billing errors, payment problems, account access issues)\n\nMessage: {message}\n\nPrevious context (if any): {context}\n\nRespond with ONLY the classification (SUPPORT, SALES, GENERAL, or URGENT) and a brief reason.\nFormat: CLASSIFICATION: <category>\nREASON: <brief explanation>\n"

/-- app/agent/prompts.py: SUPPORT_RESPONSE_PROMPT_A. -/
def SUPPORT_RESPONSE_PROMPT_A : String :=
  "You are a professional and empathetic customer support agent.\n\nYour task is to respond to the customer's support query with:\n- Empathy and understanding\n- Professional tone\n- Clear and helpful information\n- Request for additional details if needed (e.g., order number, account email)\n- Reassurance that you're here to help\n\nCustomer Message: {message}\n\nConversation Context: {context}\n\nGenerate a helpful and empathetic response. Keep it concise (2-3 sentences).\n"

/-- app/agent/prompts.py: SUPPORT_RESPONSE_PROMPT_B. -/
def SUPPORT_RESPONSE_PROMPT_B : String :=
  "You are a highly empathetic, solution-focused customer support specialist.\n\nYour task is to:\n- Acknowledge the customer's feelings first\n- Clearly explain what you can do next\n- Ask only for the minimum necessary details\n- Reassure them that their issue is being prioritized\n\nCustomer Message: {message}\n\nConversation Context: {context}\n\nGenerate a concise response (2-3 sentences) that is calm, empathetic, and action-oriented.\n"

/-- app/agent/prompts.py: SALES_RESPONSE_PROMPT_A. -/
def SALES_RESPONSE_PROMPT_A : String :=
  "You are a persuasive and informative sales agent.\n\nYour task is to respond to the customer's sales inquiry with:\n- Enthusiastic and professional tone\n- Clear product/pricing information (if you have it, otherwise offer to provide it)\n- Value propositions and benefits\n- Call-to-action (schedule demo, request more info, etc.)\n- Lead qualification questions when appropriate\n\nCustomer Message: {message}\n\nConversation Context: {context}\n\nGenerate a persuasive sales response. Keep it concise (2-3 sentences) and engaging.\n"

/-- app/agent/prompts.py: SALES_RESPONSE_PROMPT_B. -/
def SALES_RESPONSE_PROMPT_B : String :=
  "You are a consultative B2B sales specialist.\n\nYour task is to:\n- Confirm understanding of the customer's need\n- Share 1-2 key value propositions\n- Offer a clear next step (demo, call, or proposal)\n\nCustomer Message: {message}\n\nConversation Context: {context}\n\nGenerate a concise (2-3 sentences) response that feels consultative, not pushy.\n"

/-- app/agent/prompts.py: GENERAL_RESPONSE_PROMPT_A. -/
def GENERAL_RESPONSE_PROMPT_A : String :=
  "You are a friendly and helpful AI assistant.\n\nYour task is to respond to general inquiries or casual conversation with:\n- Friendly and approachable tone\n- Helpful information\n- Offer to assist with specific questions\n\nCustomer Message: {message}\n\nConversation Context: {context}\n\nGenerate a friendly response. Keep it concise (1-2 sentences).\n"

/-- app/agent/prompts.py: GENERAL_RESPONSE_PROMPT_B. -/
def GENERAL_RESPONSE_PROMPT_B : String :=
  "You are a concise, friendly AI assistant.\n\nYour task is to:\n- Greet the user briefly\n- Acknowledge their message\n- Offer concrete next help\n\nCustomer Message: {message}\n\nConversation Context: {context}\n\nGenerate a short (1-2 sentences) response that is warm and clear.\n"

/-- app/agent/prompts.py: ESCALATION_MESSAGE, the fixed escalation reply. -/
def ESCALATION_MESSAGE : String :=
  "I understand this is important to you, and I want to make sure you get the best possible assistance. I'm connecting you with a human agent who will be able to help you right away. They'll be with you shortly.\n\nIn the meantime, your case has been flagged as high priority."

/-- app/agent/prompts.py: MOCK_RESPONSES dict (fallback texts per intent). -/
def MOCK_RESPONSES : List (String × String) :=
  [ ("support", "Thank you for reaching out! I understand your concern. Could you please provide your order number or account email so I can look into this for you right away?")
  , ("sales", "Thank you for your interest in our enterprise plan! For 50 users, our pricing starts at $X per month. I'd be happy to schedule a demo to show you all the features. Would that work for you?")
  , ("general", "Hello! Thanks for getting in touch. How can I assist you today?")
  , ("urgent", ESCALATION_MESSAGE) ]

/-- Python `MOCK_RESPONSES.get(intent, MOCK_RESPONSES["general"])`. -/
def mock_response (intent : String) : String :=
  (MOCK_RESPONSES.lookup intent).getD
    ((MOCK_RESPONSES.lookup "general").getD "")

example : detect_urgency "This is ridiculous!!! I need help NOW!" = true := by decide
example : detect_urgency "I've been charged twice, this is unacceptable" = true := by decide
example : detect_urgency "Hello, I have a question about pricing" = false := by decide
example : detect_urgency "What's the pricing for your enterprise plan?" = false := by decide
example : extract_sentiment_indicators "Thank you so much! This is great!" > 0 := by decide
example : extract_sentiment_indicators "This is terrible and unacceptable!" < 0 := by decide
example : extract_sentiment_indicators "I have a question about my order." = 0 := by decide
example : format_context [] = "No previous context." := by decide

/-- app/agent/nodes.py: sales keyword list of `_rule_based_classification`. -/
def sales_keywords : List String :=
  [ "price", "pricing", "cost", "buy", "purchase", "plan", "enterprise", "demo" ]

/-- app/agent/nodes.py: support keyword list of `_rule_based_classification`. -/
def support_keywords : List String :=
  [ "order", "tracking", "issue", "problem", "help", "support", "not working" ]

/-- app/agent/nodes.py: `AgentNodes._rule_based_classification`. -/
def rule_based_classification (message : String) : String :=
  let message_lower := strLower message
  if sales_keywords.any (fun k => strContains message_lower k) then "sales"
  else if support_keywords.any (fun k => strContains message_lower k) then "support"
  else "general"

/-- app/agent/nodes.py, classify_message lines 101-105: extract the
category from a provider reply containing the "CLASSIFICATION:" marker.
Python indexes `[0]` into the matching lines and `[1]` into the colon
split; both are guarded (the marker, which contains no newline, occurs
in some line, and that line contains a colon), so `getD` defaults are
never taken under the guard. -/
def parse_classification (response_text : String) : String :=
  let matching :=
    (strSplitOnChar '\n' response_text).filter
      fun l => strContains l "CLASSIFICATION:"
  let intent_line := matching.headD ""
  strLower (strStrip ((strSplitOnChar ':' intent_line).getD 1 ""))

/-- Result of `classify_message`: the updated state plus whether the
LLM provider (`self.llm.invoke`) and the rule-based fallback
(`self._rule_based_classification`) were invoked. -/
structure ClassifyOut where
  state : AgentState
  llm_invoked : Bool
  rule_invoked : Bool
deriving Repr

/-- app/agent/nodes.py: `AgentNodes.classify_message`. -/
def classify_message (llm : Option Provider) (s : Settings) (st : AgentState) :
    ClassifyOut :=
  let message := st.message
  let lang :=
    if s.agent_auto_detect_language then detect_language message
    else s.agent_default_language
  let st1 := { st with language := some lang
                     , prompt_variant := some (strUpper s.agent_prompt_variant) }
  let context := format_context st1.conversation_history
  if detect_urgency message then
    { state := { st1 with intent := some "urgent", requires_escalation := some true }
    , llm_invoked := false, rule_invoked := false }
  else
    match llm with
    | some p =>
      match p CLASSIFICATION_PROMPT message context with
      | Except.ok response_text =>
        if strContains response_text "CLASSIFICATION:" then
          { state := { st1 with intent := some (parse_classification response_text)
                              , classification_reason := some response_text }
          , llm_invoked := true, rule_invoked := false }
        else
          { state := { st1 with intent := some (rule_based_classification message) }
          , llm_invoked := true, rule_invoked := true }
      | Except.error _ =>
        { state := { st1 with intent := some (rule_based_classification message) }
        , llm_invoked := true, rule_invoked := true }
    | none =>
      { state := { st1 with intent := some (rule_based_classification message) }
      , llm_invoked := false, rule_invoked := true }

/-- app/agent/nodes.py: `AgentNodes.retrieve_context`. -/
def retrieve_context (st : AgentState) : AgentState :=
  { st with formatted_context := some (format_context st.conversation_history) }

/-- app/agent/nodes.py: `AgentNodes._get_prompt_for_intent`. -/
def get_prompt_for_intent (intent variant : String) : String :=
  let key := select_prompt_variant intent variant
  let mapping : List (String × String) :=
    [ ("support_A", SUPPORT_RESPONSE_PROMPT_A)
    , ("support_B", SUPPORT_RESPONSE_PROMPT_B)
    , ("sales_A", SALES_RESPONSE_PROMPT_A)
    , ("sales_B", SALES_RESPONSE_PROMPT_B)
    , ("general_A", GENERAL_RESPONSE_PROMPT_A)
    , ("general_B", GENERAL_RESPONSE_PROMPT_B) ]
  (mapping.lookup key).getD GENERAL_RESPONSE_PROMPT_A

/-- app/agent/nodes.py: `AgentNodes._wrap_prompt_with_language_hint`.
Python `if not language or language == "en"` — the hint is added only
for a non-empty language different from the literal "en". -/
def wrap_prompt_with_language_hint (base_prompt language : String) : String :=
  if language = "" || language = "en" then base_prompt
  else "You MUST answer in language code '" ++ language ++ "'.\n\n" ++ base_prompt

/-- Result of `generate_response`: the updated state plus whether the
LLM provider was invoked. -/
structure GenerateOut where
  state : AgentState
  llm_invoked : Bool
deriving Repr

/-- app/agent/nodes.py: `AgentNodes.generate_response`. -/
def generate_response (llm : Option Provider) (s : Settings) (st : AgentState) :
    GenerateOut :=
  let intent := st.intent.getD "general"
  let message := st.message
  let context := st.formatted_context.getD ""
  let language := st.language.getD s.agent_default_language
  let variant := st.prompt_variant.getD (strUpper s.agent_prompt_variant)
  let sentiment := st.sentiment_score.getD 0
  if intent = "urgent" || st.requires_escalation.getD false then
    { state := { st with response := some ESCALATION_MESSAGE
                       , requires_escalation := some true }
    , llm_invoked := false }
  else
    let base_prompt_template := get_prompt_for_intent intent variant
    let prompt_template := wrap_prompt_with_language_hint base_prompt_template language
    match llm with
    | some p =>
      let final_text :=
        match p prompt_template message context with
        | Except.ok text => text
        | Except.error _ => mock_response intent
      let adjusted := adjust_response_for_sentiment final_text sentiment
      { state := { st with response := some adjusted }, llm_invoked := true }
    | none =>
      let adjusted := adjust_response_for_sentiment (mock_response intent) sentiment
      { state := { st with response := some adjusted }, llm_invoked := false }

/-- app/agent/nodes.py: `AgentNodes.check_escalation`. -/
def check_escalation (st : AgentState) : AgentState :=
  let intent := st.intent.getD ""
  let message := st.message
  if intent = "urgent" then
    { st with requires_escalation := some true
            , escalation_reason := some "Urgent issue requiring immediate human attention"
            , sentiment_score := some (extract_sentiment_indicators message) }
  else
    let sentiment := extract_sentiment_indicators message
    if sentiment ≤ mkRat (-6) 10 then
      { st with sentiment_score := some sentiment
              , requires_escalation := some true
              , escalation_reason := some "Highly negative sentiment detected" }
    else
      { st with sentiment_score := some sentiment
              , requires_escalation := some (st.requires_escalation.getD false) }

/-- app/agent/nodes.py, validate_response line 289: the fixed
apologetic hand-off text substituted on rejection. -/
def HANDOFF_MESSAGE : String :=
  "I apologize, but I'm having trouble generating a response. Let me connect you with a human agent."

/-- app/agent/nodes.py: `AgentNodes.validate_response`. -/
def validate_response (st : AgentState) : AgentState :=
  let response := st.response.getD ""
  let is_valid :=
    decide (strLen response > 10) && decide (strLen response < 1000)
      && decide (strStrip response ≠ "")
  let st1 := { st with response_valid := some is_valid }
  if is_valid then st1
  else { st1 with response := some HANDOFF_MESSAGE
                , requires_escalation := some true }

/-- Modelled from the spec: the LangGraph orchestrator wiring the five
nodes is not under src/; spec §4.6 fixes the linear stage order
Received → Classified → ContextReady → Generated → EscalationChecked →
Validated → Done, each stage running exactly once. -/
def run_pipeline (llm : Option Provider) (s : Settings) (st : AgentState) :
    AgentState :=
  let st1 := (classify_message llm s st).state
  let st2 := retrieve_context st1
  let st3 := (generate_response llm s st2).state
  let st4 := check_escalation st3
  validate_response st4

section Helpers

/-- The four fixed intent labels (spec §4.2, glossary). -/
def fixed_intents : List String :=
  [ "support", "sales", "general", "urgent" ]

/-- The rule-based fallback only ever yields one of its three labels. -/
lemma rule_based_classification_cases (m : String) :
    rule_based_classification m = "sales" ∨
    rule_based_classification m = "support" ∨
    rule_based_classification m = "general" := by
  simp only [rule_based_classification]
  split
  · exact Or.inl rfl
  · split
    · exact Or.inr (Or.inl rfl)
    · exact Or.inr (Or.inr rfl)

/-- No node ever writes `some false` over an escalation flag: each
stage either forces the flag to `some true`, writes back the flag it
read, or leaves the field alone. -/
lemma classify_escalation_cases (llm : Option Provider) (s : Settings) (st : AgentState) :
    (classify_message llm s st).state.requires_escalation = some true ∨
    (classify_message llm s st).state.requires_escalation = st.requires_escalation := by
  unfold classify_message
  cases llm with
  | none =>
    cases hd : detect_urgency st.message <;> simp [hd]
  | some p =>
    cases hd : detect_urgency st.message <;> simp [hd]
    cases hp : p CLASSIFICATION_PROMPT st.message (format_context st.conversation_history) <;> simp [hp]
    split <;> simp

lemma generate_escalation_cases (llm : Option Provider) (s : Settings) (st : AgentState) :
    (generate_response llm s st).state.requires_escalation = some true ∨
    (generate_response llm s st).state.requires_escalation = st.requires_escalation := by
  cases llm <;> · unfold generate_response; dsimp only; split <;> simp

lemma check_escalation_cases (st : AgentState) :
    (check_escalation st).requires_escalation = some true ∨
    (check_escalation st).requires_escalation = some (st.requires_escalation.getD false) := by
  unfold check_escalation
  dsimp only
  split
  · exact Or.inl (by simp)
  · split <;> simp

/-- The acceptance test of `validate_response` as one boolean. -/
def accept_bool (st : AgentState) : Bool :=
  decide (strLen (st.response.getD "") > 10) &&
    decide (strLen (st.response.getD "") < 1000) &&
    decide (strStrip (st.response.getD "") ≠ "")

/-- `validate_response` as a two-branch conditional on `accept_bool`. -/
lemma validate_response_eq (st : AgentState) :
    validate_response st =
      (if accept_bool st then { st with response_valid := some true }
       else { st with response_valid := some false
                    , response := some HANDOFF_MESSAGE
                    , requires_escalation := some true }) := by
  unfold validate_response accept_bool
  dsimp only
  cases hv : (decide (strLen (st.response.getD "") > 10) &&
      decide (strLen (st.response.getD "") < 1000) &&
      decide (strStrip (st.response.getD "") ≠ "")) <;> simp [hv]

/-- `accept_bool` is the decidable form of the acceptance predicate. -/
lemma accept_bool_iff (st : AgentState) :
    accept_bool st = true ↔
      (10 < strLen (st.response.getD "") ∧ strLen (st.response.getD "") < 1000 ∧
        strStrip (st.response.getD "") ≠ "") := by
  unfold accept_bool
  simp [Bool.and_eq_true, decide_eq_true_eq, and_assoc, gt_iff_lt]

lemma validate_escalation_cases (st : AgentState) :
    (validate_response st).requires_escalation = some true ∨
    (validate_response st).requires_escalation = st.requires_escalation := by
  rw [validate_response_eq]
  cases hv : accept_bool st <;> simp [hv]

end Helpers

/-- C2: if `requires_escalation` is `true` before any of the five
stages runs, it is still `true` afterwards — no stage resets a true
flag to false. -/
theorem c2_escalation_monotone (llm : Option Provider) (s : Settings) (st : AgentState)
    (h : st.requires_escalation = some true) :
    (classify_message llm s st).state.requires_escalation = some true ∧
    (retrieve_context st).requires_escalation = some true ∧
    (generate_response llm s st).state.requires_escalation = some true ∧
    (check_escalation st).requires_escalation = some true ∧
    (validate_response st).requires_escalation = some true := by
  refine ⟨?_, ?_, ?_, ?_, ?_⟩
  · rcases classify_escalation_cases llm s st with hc | hc <;> simp [hc, h]
  · simp [retrieve_context, h]
  · rcases generate_escalation_cases llm s st with hc | hc <;> simp [hc, h]
  · rcases check_escalation_cases st with hc | hc <;> simp [hc, h]
  · rcases validate_escalation_cases st with hc | hc <;> simp [hc, h]

/-- C2 witness: an escalated state stays escalated through every stage. -/
theorem c2_escalation_monotone_witness :
    ({ initState "hello" with requires_escalation := some true } : AgentState).requires_escalation = some true ∧
    (classify_message none defaultSettings { initState "hello" with requires_escalation := some true }).state.requires_escalation = some true ∧
    (retrieve_context { initState "hello" with requires_escalation := some true }).requires_escalation = some true ∧
    (generate_response none defaultSettings { initState "hello" with requires_escalation := some true }).state.requires_escalation = some true ∧
    (check_escalation { initState "hello" with requires_escalation := some true }).requires_escalation = some true ∧
    (validate_response { initState "hello" with requires_escalation := some true }).requires_escalation = some true :=
  ⟨rfl, c2_escalation_monotone none defaultSettings _ rfl⟩

/-- C1: whenever `detect_urgency` fires, `classify_message`
short-circuits to intent "urgent" with escalation forced, invoking
neither the LLM provider nor the rule-based classifier, whatever
provider is configured. -/
theorem c1_urgency_short_circuit (llm : Option Provider) (s : Settings) (st : AgentState)
    (h : detect_urgency st.message = true) :
    (classify_message llm s st).state.intent = some "urgent" ∧
    (classify_message llm s st).state.requires_escalation = some true ∧
    (classify_message llm s st).llm_invoked = false ∧
    (classify_message llm s st).rule_invoked = false := by
  unfold classify_message
  simp [h]

/-- C1 witness: the urgency short-circuit on a concrete urgent message. -/
theorem c1_urgency_short_circuit_witness :
    detect_urgency (initState "This is ridiculous!!! I've been charged twice!").message = true ∧
    ((classify_message none defaultSettings (initState "This is ridiculous!!! I've been charged twice!")).state.intent = some "urgent" ∧
     (classify_message none defaultSettings (initState "This is ridiculous!!! I've been charged twice!")).state.requires_escalation = some true ∧
     (classify_message none defaultSettings (initState "This is ridiculous!!! I've been charged twice!")).llm_invoked = false ∧
     (classify_message none defaultSettings (initState "This is ridiculous!!! I've been charged twice!")).rule_invoked = false) :=
  ⟨by decide, c1_urgency_short_circuit none defaultSettings _ (by decide)⟩

/-- C5: `validate_response` accepts exactly the responses of length
strictly between 10 and 1000 whose trimmed text is non-empty (a
10-character response is invalid, an 11-character non-blank one is
valid), and every rejection substitutes the fixed hand-off message and
forces escalation. -/
theorem c5_validate_response_spec (st : AgentState) :
    ((validate_response st).response_valid = some true ↔
      (10 < strLen (st.response.getD "") ∧ strLen (st.response.getD "") < 1000 ∧
        strStrip (st.response.getD "") ≠ "")) ∧
    ((validate_response st).response_valid = some false →
      (validate_response st).response = some HANDOFF_MESSAGE ∧
      (validate_response st).requires_escalation = some true) ∧
    (validate_response { initState "" with response := some "aaaaaaaaaa" }).response_valid = some false ∧
    (validate_response { initState "" with response := some "aaaaaaaaaaa" }).response_valid = some true := by
  refine ⟨?_, ?_, by decide, by decide⟩
  · rw [validate_response_eq, ← accept_bool_iff]
    cases hv : accept_bool st <;> simp [hv]
  · rw [validate_response_eq]
    cases hv : accept_bool st <;> simp [hv]

/-- C5 witness: the acceptance rule and rejection behaviour evaluated
on a short rejected response. -/
theorem c5_validate_response_spec_witness :
    (((validate_response { initState "" with response := some "Hi" }).response_valid = some true ↔
      (10 < strLen ((some "Hi" : Option String).getD "") ∧
        strLen ((some "Hi" : Option String).getD "") < 1000 ∧
        strStrip ((some "Hi" : Option String).getD "") ≠ "")) ∧
    ((validate_response { initState "" with response := some "Hi" }).response_valid = some false →
      (validate_response { initState "" with response := some "Hi" }).response = some HANDOFF_MESSAGE ∧
      (validate_response { initState "" with response := some "Hi" }).requires_escalation = some true) ∧
    (validate_response { initState "" with response := some "aaaaaaaaaa" }).response_valid = some false ∧
    (validate_response { initState "" with response := some "aaaaaaaaaaa" }).response_valid = some true) :=
  c5_validate_response_spec { initState "" with response := some "Hi" }

/-- C10: the hand-off message substituted on rejection itself passes
the acceptance rule, so a second `validate_response` on the
post-rejection state accepts and leaves the response text unchanged. -/
theorem c10_validate_fixpoint (st : AgentState)
    (h : (validate_response st).response_valid = some false) :
    (10 < strLen HANDOFF_MESSAGE ∧ strLen HANDOFF_MESSAGE < 1000 ∧
      strStrip HANDOFF_MESSAGE ≠ "") ∧
    (validate_response (validate_response st)).response_valid = some true ∧
    (validate_response (validate_response st)).response = (validate_response st).response := by
  have hrej : validate_response st =
      { st with response_valid := some false
              , response := some HANDOFF_MESSAGE
              , requires_escalation := some true } := by
    rw [validate_response_eq] at h ⊢
    cases hv : accept_bool st <;> simp [hv] at h ⊢
  have haccept : accept_bool (validate_response st) = true := by
    rw [hrej]
    unfold accept_bool
    dsimp only
    decide
  rw [validate_response_eq (validate_response st)]
  refine ⟨by decide, by simp [haccept], by simp [haccept]⟩

/-- C10 witness: re-validation after rejecting the 2-character
response "Hi". -/
theorem c10_validate_fixpoint_witness :
    (validate_response { initState "" with response := some "Hi" }).response_valid = some false ∧
    ((10 < strLen HANDOFF_MESSAGE ∧ strLen HANDOFF_MESSAGE < 1000 ∧
      strStrip HANDOFF_MESSAGE ≠ "") ∧
    (validate_response (validate_response { initState "" with response := some "Hi" })).response_valid = some true ∧
    (validate_response (validate_response { initState "" with response := some "Hi" })).response = (validate_response { initState "" with response := some "Hi" }).response) :=
  ⟨by decide, c10_validate_fixpoint _ (by decide)⟩

/-- C3 counterexample: for an urgent intent the code's escalation
reason is "Urgent issue requiring immediate human attention", not the
claimed "urgent issue requiring immediate attention". -/
theorem c3_reason_counterexample :
    (check_escalation { initState "payment issue" with intent := some "urgent" }).escalation_reason =
      some "Urgent issue requiring immediate human attention" ∧
    ¬ (check_escalation { initState "payment issue" with intent := some "urgent" }).escalation_reason =
      some "urgent issue requiring immediate attention" :=
  ⟨by decide, by decide⟩

/-- C3 (amended): `check_escalation`, in order: urgent intent forces
escalation with reason "Urgent issue requiring immediate human
attention" and still computes the sentiment score; otherwise it stores
the sentiment score and, when it is ≤ -0.6, escalates with reason
"Highly negative sentiment detected"; otherwise it writes back the
escalation flag it read and keeps the reason; no other field changes. -/
theorem c3_check_escalation_spec (st : AgentState) :
    (st.intent.getD "" = "urgent" →
      (check_escalation st).requires_escalation = some true ∧
      (check_escalation st).escalation_reason =
        some "Urgent issue requiring immediate human attention" ∧
      (check_escalation st).sentiment_score =
        some (extract_sentiment_indicators st.message)) ∧
    (st.intent.getD "" ≠ "urgent" →
      (check_escalation st).sentiment_score =
        some (extract_sentiment_indicators st.message) ∧
      (extract_sentiment_indicators st.message ≤ mkRat (-6) 10 →
        (check_escalation st).requires_escalation = some true ∧
        (check_escalation st).escalation_reason = some "Highly negative sentiment detected") ∧
      (¬ extract_sentiment_indicators st.message ≤ mkRat (-6) 10 →
        (check_escalation st).requires_escalation = some (st.requires_escalation.getD false) ∧
        (check_escalation st).escalation_reason = st.escalation_reason)) ∧
    ((check_escalation st).message = st.message ∧
      (check_escalation st).conversation_history = st.conversation_history ∧
      (check_escalation st).language = st.language ∧
      (check_escalation st).prompt_variant = st.prompt_variant ∧
      (check_escalation st).intent = st.intent ∧
      (check_escalation st).classification_reason = st.classification_reason ∧
      (check_escalation st).formatted_context = st.formatted_context ∧
      (check_escalation st).response = st.response ∧
      (check_escalation st).response_valid = st.response_valid) := by
  unfold check_escalation
  dsimp only
  by_cases hi : st.intent.getD "" = "urgent" <;>
    by_cases hs : extract_sentiment_indicators st.message ≤ mkRat (-6) 10 <;>
      simp [hi, hs]

/-- C3 witness: the escalation stage evaluated on a concrete urgent
state. -/
theorem c3_check_escalation_spec_witness :
    (({ initState "bad day" with intent := some "urgent" } : AgentState).intent.getD "" = "urgent" →
      (check_escalation { initState "bad day" with intent := some "urgent" }).requires_escalation = some true ∧
      (check_escalation { initState "bad day" with intent := some "urgent" }).escalation_reason =
        some "Urgent issue requiring immediate human attention" ∧
      (check_escalation { initState "bad day" with intent := some "urgent" }).sentiment_score =
        some (extract_sentiment_indicators ({ initState "bad day" with intent := some "urgent" } : AgentState).message)) ∧
    (({ initState "bad day" with intent := some "urgent" } : AgentState).intent.getD "" ≠ "urgent" →
      (check_escalation { initState "bad day" with intent := some "urgent" }).sentiment_score =
        some (extract_sentiment_indicators ({ initState "bad day" with intent := some "urgent" } : AgentState).message) ∧
      (extract_sentiment_indicators ({ initState "bad day" with intent := some "urgent" } : AgentState).message ≤ mkRat (-6) 10 →
        (check_escalation { initState "bad day" with intent := some "urgent" }).requires_escalation = some true ∧
        (check_escalation { initState "bad day" with intent := some "urgent" }).escalation_reason = some "Highly negative sentiment detected") ∧
      (¬ extract_sentiment_indicators ({ initState "bad day" with intent := some "urgent" } : AgentState).message ≤ mkRat (-6) 10 →
        (check_escalation { initState "bad day" with intent := some "urgent" }).requires_escalation =
          some (({ initState "bad day" with intent := some "urgent" } : AgentState).requires_escalation.getD false) ∧
        (check_escalation { initState "bad day" with intent := some "urgent" }).escalation_reason =
          ({ initState "bad day" with intent := some "urgent" } : AgentState).escalation_reason)) ∧
    ((check_escalation { initState "bad day" with intent := some "urgent" }).message =
        ({ initState "bad day" with intent := some "urgent" } : AgentState).message ∧
      (check_escalation { initState "bad day" with intent := some "urgent" }).conversation_history =
        ({ initState "bad day" with intent := some "urgent" } : AgentState).conversation_history ∧
      (check_escalation { initState "bad day" with intent := some "urgent" }).language =
        ({ initState "bad day" with intent := some "urgent" } : AgentState).language ∧
      (check_escalation { initState "bad day" with intent := some "urgent" }).prompt_variant =
        ({ initState "bad day" with intent := some "urgent" } : AgentState).prompt_variant ∧
      (check_escalation { initState "bad day" with intent := some "urgent" }).intent =
        ({ initState "bad day" with intent := some "urgent" } : AgentState).intent ∧
      (check_escalation { initState "bad day" with intent := some "urgent" }).classification_reason =
        ({ initState "bad day" with intent := some "urgent" } : AgentState).classification_reason ∧
      (check_escalation { initState "bad day" with intent := some "urgent" }).formatted_context =
        ({ initState "bad day" with intent := some "urgent" } : AgentState).formatted_context ∧
      (check_escalation { initState "bad day" with intent := some "urgent" }).response =
        ({ initState "bad day" with intent := some "urgent" } : AgentState).response ∧
      (check_escalation { initState "bad day" with intent := some "urgent" }).response_valid =
        ({ initState "bad day" with intent := some "urgent" } : AgentState).response_valid) :=
  c3_check_escalation_spec { initState "bad day" with intent := some "urgent" }

set_option maxRecDepth 100000 in
/-- C4: with the escalation flag set or an urgent intent,
`generate_response` returns the fixed escalation message verbatim
without invoking the provider; the pipeline on the urgent billing
message ends urgent, escalated, with exactly that message — whatever
provider is configured. -/
theorem c4_generate_escalation (llm : Option Provider) (s : Settings) (st : AgentState)
    (h : st.intent.getD "general" = "urgent" ∨ st.requires_escalation.getD false = true) :
    (generate_response llm s st).state.response = some ESCALATION_MESSAGE ∧
    (generate_response llm s st).state.requires_escalation = some true ∧
    (generate_response llm s st).llm_invoked = false ∧
    (run_pipeline llm defaultSettings
      (initState "This is ridiculous!!! I've been charged twice!")).intent = some "urgent" ∧
    (run_pipeline llm defaultSettings
      (initState "This is ridiculous!!! I've been charged twice!")).requires_escalation = some true ∧
    (run_pipeline llm defaultSettings
      (initState "This is ridiculous!!! I've been charged twice!")).response = some ESCALATION_MESSAGE := by
  have hc : (decide (st.intent.getD "general" = "urgent") || st.requires_escalation.getD false) = true := by
    rcases h with h | h <;> simp [h]
  refine ⟨?_, ?_, ?_, rfl, rfl, rfl⟩ <;>
    · unfold generate_response
      dsimp only
      rw [hc]
      simp

/-- C4 witness: the escalation path of the generator on an urgent
state, and the end-to-end urgent scenario without a provider. -/
theorem c4_generate_escalation_witness :
    (({ initState "x" with intent := some "urgent" } : AgentState).intent.getD "general" = "urgent" ∨
      ({ initState "x" with intent := some "urgent" } : AgentState).requires_escalation.getD false = true) ∧
    ((generate_response none defaultSettings { initState "x" with intent := some "urgent" }).state.response = some ESCALATION_MESSAGE ∧
    (generate_response none defaultSettings { initState "x" with intent := some "urgent" }).state.requires_escalation = some true ∧
    (generate_response none defaultSettings { initState "x" with intent := some "urgent" }).llm_invoked = false ∧
    (run_pipeline none defaultSettings
      (initState "This is ridiculous!!! I've been charged twice!")).intent = some "urgent" ∧
    (run_pipeline none defaultSettings
      (initState "This is ridiculous!!! I've been charged twice!")).requires_escalation = some true ∧
    (run_pipeline none defaultSettings
      (initState "This is ridiculous!!! I've been charged twice!")).response = some ESCALATION_MESSAGE) :=
  ⟨Or.inl (by decide), c4_generate_escalation none defaultSettings _ (Or.inl (by decide))⟩

/-- C7 counterexample: the urgency short-circuit of `classify_message`
performs the first false-to-true escalation transition with
`escalation_reason` still unset. -/
theorem c7_reason_unset_counterexample :
    (initState "This is ridiculous!!! I've been charged twice!").requires_escalation.getD false = false ∧
    (classify_message none defaultSettings
      (initState "This is ridiculous!!! I've been charged twice!")).state.requires_escalation = some true ∧
    (classify_message none defaultSettings
      (initState "This is ridiculous!!! I've been charged twice!")).state.escalation_reason = none :=
  ⟨rfl, by decide, by decide⟩

/-- C7 (amended): only `check_escalation` ever writes
`escalation_reason` — and it does set a reason whenever it performs the
false-to-true transition; `classify_message` (urgency short-circuit
included), `retrieve_context`, `generate_response`, and
`validate_response` (rejection included) leave `escalation_reason`
unchanged even when they set `requires_escalation` to true. -/
theorem c7_escalation_reason_policy (llm : Option Provider) (s : Settings) (st : AgentState) :
    (classify_message llm s st).state.escalation_reason = st.escalation_reason ∧
    (retrieve_context st).escalation_reason = st.escalation_reason ∧
    (generate_response llm s st).state.escalation_reason = st.escalation_reason ∧
    (validate_response st).escalation_reason = st.escalation_reason ∧
    (st.requires_escalation.getD false = false →
      (check_escalation st).requires_escalation = some true →
      (check_escalation st).escalation_reason ≠ none) := by
  refine ⟨?_, ?_, ?_, ?_, ?_⟩
  · cases llm with
    | none =>
      unfold classify_message; dsimp only
      cases hd : detect_urgency st.message <;> simp [hd]
    | some p =>
      unfold classify_message; dsimp only
      cases hd : detect_urgency st.message <;> simp [hd]
      cases hp : p CLASSIFICATION_PROMPT st.message (format_context st.conversation_history) <;>
        simp [hp]
      split <;> simp
  · simp [retrieve_context]
  · cases llm <;> · unfold generate_response; dsimp only; split <;> simp
  · rw [validate_response_eq]
    cases hv : accept_bool st <;> simp [hv]
  · intro h0 htrue
    unfold check_escalation at htrue ⊢
    dsimp only at htrue ⊢
    by_cases hi : st.intent.getD "" = "urgent"
    · simp [hi]
    · by_cases hs : extract_sentiment_indicators st.message ≤ mkRat (-6) 10
      · simp [hi, hs]
      · simp [hi, hs, h0] at htrue

/-- C7 witness: the reason policy evaluated on a state whose sentiment
is low enough that `check_escalation` performs the transition. -/
theorem c7_escalation_reason_policy_witness :
    (classify_message none defaultSettings (initState "This is terrible and unacceptable!")).state.escalation_reason =
      (initState "This is terrible and unacceptable!").escalation_reason ∧
    (retrieve_context (initState "This is terrible and unacceptable!")).escalation_reason =
      (initState "This is terrible and unacceptable!").escalation_reason ∧
    (generate_response none defaultSettings (initState "This is terrible and unacceptable!")).state.escalation_reason =
      (initState "This is terrible and unacceptable!").escalation_reason ∧
    (validate_response (initState "This is terrible and unacceptable!")).escalation_reason =
      (initState "This is terrible and unacceptable!").escalation_reason ∧
    ((initState "This is terrible and unacceptable!").requires_escalation.getD false = false →
      (check_escalation (initState "This is terrible and unacceptable!")).requires_escalation = some true →
      (check_escalation (initState "This is terrible and unacceptable!")).escalation_reason ≠ none) :=
  c7_escalation_reason_policy none defaultSettings (initState "This is terrible and unacceptable!")

/-- C8 counterexample: with the configured default language set to
"fr", a state language equal to that default still gets the language
directive prepended — the code compares against the literal "en", not
against `agent_default_language`. -/
theorem c8_default_language_counterexample :
    ({ defaultSettings with agent_default_language := "fr" } : Settings).agent_default_language = "fr" ∧
    wrap_prompt_with_language_hint GENERAL_RESPONSE_PROMPT_A "fr" ≠ GENERAL_RESPONSE_PROMPT_A :=
  ⟨rfl, by decide⟩

/-- `String.append` concatenates the character data. -/
lemma str_append_data (a b : String) : (a ++ b).data = a.data ++ b.data := rfl

/-- C8 (amended): the language directive is prepended iff the state's
language is non-empty and differs from the literal "en";
`agent_default_language` is never consulted here (the two coincide
only under the default configuration). -/
theorem c8_language_hint_iff (base lang : String) :
    (wrap_prompt_with_language_hint base lang = base ↔ (lang = "" ∨ lang = "en")) ∧
    (lang ≠ "" → lang ≠ "en" →
      wrap_prompt_with_language_hint base lang =
        "You MUST answer in language code '" ++ lang ++ "'.\n\n" ++ base) := by
  by_cases h1 : lang = ""
  · constructor
    · simp [wrap_prompt_with_language_hint, h1]
    · intro hc; exact absurd h1 hc
  · by_cases h2 : lang = "en"
    · constructor
      · simp [wrap_prompt_with_language_hint, h2]
      · intro _ hc; exact absurd h2 hc
    · have heqn : wrap_prompt_with_language_hint base lang =
          "You MUST answer in language code '" ++ lang ++ "'.\n\n" ++ base := by
        unfold wrap_prompt_with_language_hint
        simp [h1, h2]
      refine ⟨⟨fun heq => ?_, fun hor => ?_⟩, fun _ _ => heqn⟩
      · exfalso
        rw [heqn] at heq
        have hlen := congrArg (fun s : String => s.data.length) heq
        simp only [str_append_data, List.length_append, List.length_cons,
          List.length_nil] at hlen
        omega
      · rcases hor with hor | hor
        · exact absurd hor h1
        · exact absurd hor h2

/-- C8 witness: the directive characterisation at language "fr" over
the general template. -/
theorem c8_language_hint_iff_witness :
    ((wrap_prompt_with_language_hint GENERAL_RESPONSE_PROMPT_A "fr" = GENERAL_RESPONSE_PROMPT_A ↔
      (("fr" : String) = "" ∨ ("fr" : String) = "en")) ∧
    (("fr" : String) ≠ "" → ("fr" : String) ≠ "en" →
      wrap_prompt_with_language_hint GENERAL_RESPONSE_PROMPT_A "fr" =
        "You MUST answer in language code '" ++ "fr" ++ "'.\n\n" ++ GENERAL_RESPONSE_PROMPT_A)) :=
  c8_language_hint_iff GENERAL_RESPONSE_PROMPT_A "fr"

/-- A provider whose reply carries the marker with a category outside
the fixed intent set. -/
def bananaProvider : Provider :=
  fun _ _ _ => Except.ok "CLASSIFICATION: banana\nREASON: because"

/-- A provider that always fails (any exception). -/
def failingProvider : Provider :=
  fun _ _ _ => Except.error ()

/-- A provider whose reply lacks the CLASSIFICATION marker. -/
def markerlessProvider : Provider :=
  fun _ _ _ => Except.ok "no marker here"

/-- C6 counterexample: a provider reply "CLASSIFICATION: banana" makes
`classify_message` terminate with intent "banana", which is none of the
four fixed intents. -/
theorem c6_provider_category_counterexample :
    (classify_message (some bananaProvider) defaultSettings
      (initState "hello")).state.intent = some "banana" ∧
    ¬ ("banana" ∈ fixed_intents) :=
  ⟨by decide, by decide⟩

/-- Every rule-based label is one of the four fixed intents. -/
lemma rule_based_classification_mem (m : String) :
    rule_based_classification m ∈ fixed_intents := by
  rcases rule_based_classification_cases m with h | h | h <;> rw [h] <;> decide

/-- C6 (amended): `classify_message` always terminates (provider
failures are absorbed, never re-raised), and the intent is one of the
four fixed values whenever no provider is configured, the provider
call fails, or its reply lacks the "CLASSIFICATION:" marker; when the
reply does carry the marker (and the message is not urgent), the
intent is the provider-supplied category — lowercased and trimmed from
the marker line — which need not be among the four. -/
theorem c6_classification_intents (s : Settings) (st : AgentState) :
    ((classify_message none s st).state.intent.getD "" ∈ fixed_intents) ∧
    (∀ p : Provider,
      p CLASSIFICATION_PROMPT st.message (format_context st.conversation_history) =
        Except.error () →
      (classify_message (some p) s st).state.intent.getD "" ∈ fixed_intents) ∧
    (∀ p : Provider, ∀ resp : String,
      p CLASSIFICATION_PROMPT st.message (format_context st.conversation_history) =
        Except.ok resp →
      strContains resp "CLASSIFICATION:" = false →
      (classify_message (some p) s st).state.intent.getD "" ∈ fixed_intents) ∧
    (∀ p : Provider, ∀ resp : String,
      p CLASSIFICATION_PROMPT st.message (format_context st.conversation_history) =
        Except.ok resp →
      strContains resp "CLASSIFICATION:" = true →
      detect_urgency st.message = false →
      (classify_message (some p) s st).state.intent = some (parse_classification resp)) := by
  refine ⟨?_, ?_, ?_, ?_⟩
  · unfold classify_message
    dsimp only
    cases hd : detect_urgency st.message <;> simp [hd]
    · exact rule_based_classification_mem st.message
    · decide
  · intro p hp
    unfold classify_message
    dsimp only
    cases hd : detect_urgency st.message <;> simp [hd, hp]
    · exact rule_based_classification_mem st.message
    · decide
  · intro p resp hp hm
    unfold classify_message
    dsimp only
    cases hd : detect_urgency st.message <;> simp [hd, hp, hm]
    · exact rule_based_classification_mem st.message
    · decide
  · intro p resp hp hm hd
    unfold classify_message
    dsimp only
    simp [hd, hp, hm]

/-- C6 witness: the termination and fallback behaviour on concrete
providers, plus the marker path on the banana provider. -/
theorem c6_classification_intents_witness :
    ((classify_message none defaultSettings (initState "hello")).state.intent.getD "" ∈ fixed_intents) ∧
    ((classify_message (some failingProvider) defaultSettings (initState "hello")).state.intent.getD "" ∈ fixed_intents) ∧
    ((classify_message (some markerlessProvider) defaultSettings (initState "hello")).state.intent.getD "" ∈ fixed_intents) ∧
    ((classify_message (some bananaProvider) defaultSettings (initState "hello")).state.intent =
      some (parse_classification "CLASSIFICATION: banana\nREASON: because")) :=
  ⟨(c6_classification_intents defaultSettings (initState "hello")).1,
   (c6_classification_intents defaultSettings (initState "hello")).2.1 failingProvider rfl,
   (c6_classification_intents defaultSettings (initState "hello")).2.2.1 markerlessProvider
     "no marker here" rfl (by decide),
   (c6_classification_intents defaultSettings (initState "hello")).2.2.2 bananaProvider
     "CLASSIFICATION: banana\nREASON: because" rfl (by decide) (by decide)⟩

set_option maxRecDepth 100000 in
/-- C9: the rule-based fallback tests sales keywords first, then
support keywords, else "general" (first matching set wins), and on the
pricing question without a provider the pipeline classifies "sales",
answers with the fixed sales mock response, and validates it. -/
theorem c9_rule_based_order_and_sales_scenario :
    (∀ m k, k ∈ sales_keywords → strContains (strLower m) k = true →
      rule_based_classification m = "sales") ∧
    (∀ m, (∀ k ∈ sales_keywords, strContains (strLower m) k = false) →
      ∀ k ∈ support_keywords, strContains (strLower m) k = true →
      rule_based_classification m = "support") ∧
    (∀ m, (∀ k ∈ sales_keywords, strContains (strLower m) k = false) →
      (∀ k ∈ support_keywords, strContains (strLower m) k = false) →
      rule_based_classification m = "general") ∧
    (run_pipeline none defaultSettings
      (initState "What's the pricing for your enterprise plan?")).intent = some "sales" ∧
    (run_pipeline none defaultSettings
      (initState "What's the pricing for your enterprise plan?")).response =
        some (mock_response "sales") ∧
    (run_pipeline none defaultSettings
      (initState "What's the pricing for your enterprise plan?")).response_valid = some true := by
  refine ⟨?_, ?_, ?_, by decide, by decide, by decide⟩
  · intro m k hk hc
    have hany : (sales_keywords.any fun k => strContains (strLower m) k) = true :=
      List.any_eq_true.mpr ⟨k, hk, hc⟩
    unfold rule_based_classification
    dsimp only
    simp [hany]
  · intro m hsales k hk hc
    have hanyF : (sales_keywords.any fun k => strContains (strLower m) k) = false := by
      rw [List.any_eq_false]
      intro x hx
      simp [hsales x hx]
    have hany : (support_keywords.any fun k => strContains (strLower m) k) = true :=
      List.any_eq_true.mpr ⟨k, hk, hc⟩
    unfold rule_based_classification
    dsimp only
    simp [hanyF, hany]
  · intro m hsales hsupport
    have hanyF : (sales_keywords.any fun k => strContains (strLower m) k) = false := by
      rw [List.any_eq_false]
      intro x hx
      simp [hsales x hx]
    have hanyF2 : (support_keywords.any fun k => strContains (strLower m) k) = false := by
      rw [List.any_eq_false]
      intro x hx
      simp [hsupport x hx]
    unfold rule_based_classification
    dsimp only
    simp [hanyF, hanyF2]

/-- C9 witness: keyword-order classification on three concrete
messages. -/
theorem c9_rule_based_order_witness :
    rule_based_classification "What's the pricing for your enterprise plan?" = "sales" ∧
    rule_based_classification "I have an issue with my delivery" = "support" ∧
    rule_based_classification "hello there" = "general" :=
  ⟨(c9_rule_based_order_and_sales_scenario).1
      "What's the pricing for your enterprise plan?" "pricing" (by decide) (by decide),
   (c9_rule_based_order_and_sales_scenario).2.1
      "I have an issue with my delivery" (by decide) "issue" (by decide) (by decide),
   (c9_rule_based_order_and_sales_scenario).2.2.1
      "hello there" (by decide) (by decide)⟩
